import Mathlib

/-!
Shallow embedding of the hand-gesture LED controller, a React + MediaPipe
application.  Canonical source: src/unnamed/part_000 (the App component:
classifier, frame callback, camera lifecycle and the ESP32 actuator
notifier); src/src/components/HandGesture.jsx contains a semantically
identical classifier and camera lifecycle without the notifier.

Modelling conventions:
- JS numbers are modelled as real numbers.
- JS array indexing, which yields undefined when out of range, is modelled
  by the Option-valued jsIndex; the TypeError thrown when a coordinate of
  an undefined landmark is read is modelled by Except.error
  JsError.typeError propagating out of the classifier.
- React state (gestureText) and the mutable refs (cameraRef) are gathered
  in AppState; the DOM refs (videoRef.current, canvasRef.current) are
  passed as Bool parameters recording whether the ref is populated.
- Side effects of one frame callback (canvas drawing, outbound HTTP
  requests) are returned as explicit lists in FrameResult.
-/

/-- A MediaPipe hand landmark: a 3D point with fields x, y, z. -/
structure Point where
  x : ℝ
  y : ℝ
  z : ℝ

/-- JS runtime errors relevant to the embedding.  typeError models the
TypeError thrown when a coordinate of an undefined (missing) landmark is
read.  invalidObservation is the error class named by the project
documentation; the code under src/ never raises it. -/
inductive JsError where
  | typeError
  | invalidObservation
  deriving DecidableEq

/-- JS array indexing on a landmark list: landmarks[i] is undefined (none)
out of range. -/
def jsIndex : List Point → Nat → Option Point
  | [], _ => none
  | p :: _, 0 => some p
  | _ :: rest, n + 1 => jsIndex rest n

/-- Reading landmarks[i] and then one of its coordinates: a missing
landmark turns into a thrown TypeError. -/
def getLm (L : List Point) (i : Nat) : Except JsError Point :=
  match jsIndex L i with
  | some p => Except.ok p
  | none => Except.error JsError.typeError

/-- The local dist helper of areAllFingersOpen:
Math.sqrt(Math.pow(p1.x-p2.x,2) + Math.pow(p1.y-p2.y,2) + Math.pow(p1.z-p2.z,2)).
Named dist3 here because dist is taken by Mathlib. -/
noncomputable def dist3 (p1 p2 : Point) : ℝ :=
  Real.sqrt ((p1.x - p2.x) ^ 2 + (p1.y - p2.y) ^ 2 + (p1.z - p2.z) ^ 2)

/-- The pure core of areAllFingersOpen, applied to the eleven landmarks the
function reads (indices 4, 0, 2, 8, 5, 12, 9, 16, 13, 20, 17, in first
access order).  Mirrors the ratio computations and the conjunction of the
five strict threshold comparisons. -/
noncomputable def ratiosOpen (p4 p0 p2 p8 p5 p12 p9 p16 p13 p20 p17 : Point) : Bool :=
  let ratioThumb := dist3 p4 p0 / dist3 p2 p0
  let ratioIndex := dist3 p8 p0 / dist3 p5 p0
  let ratioMiddle := dist3 p12 p0 / dist3 p9 p0
  let ratioRing := dist3 p16 p0 / dist3 p13 p0
  let ratioPinky := dist3 p20 p0 / dist3 p17 p0
  let threshold : ℝ := 1.7
  decide (ratioThumb > threshold) && decide (ratioIndex > threshold) &&
    decide (ratioMiddle > threshold) && decide (ratioRing > threshold) &&
    decide (ratioPinky > threshold)

/-- areAllFingersOpen(landmarks): reads the eleven used landmarks (a missing
one throws) and returns the conjunction of the five per-finger ratio tests.
Duplicate reads of landmarks[0] are collapsed; the array is not mutated, so
every read returns the same value. -/
noncomputable def areAllFingersOpen (landmarks : List Point) : Except JsError Bool := do
  let p4 ← getLm landmarks 4
  let p0 ← getLm landmarks 0
  let p2 ← getLm landmarks 2
  let p8 ← getLm landmarks 8
  let p5 ← getLm landmarks 5
  let p12 ← getLm landmarks 12
  let p9 ← getLm landmarks 9
  let p16 ← getLm landmarks 16
  let p13 ← getLm landmarks 13
  let p20 ← getLm landmarks 20
  let p17 ← getLm landmarks 17
  pure (ratiosOpen p4 p0 p2 p8 p5 p12 p9 p16 p13 p20 p17)

/-- The spec's Gesture Label: OPEN is surfaced as "ON", CLOSED as "OFF". -/
inductive GestureLabel where
  | OPEN
  | CLOSED
  deriving DecidableEq

/-- Modelled from the spec: classify(observation) -> GestureLabel is the
spec's name for the classifier; the code's areAllFingersOpen boolean true
is surfaced as OPEN, false as CLOSED. -/
noncomputable def classify (landmarks : List Point) : Except JsError GestureLabel :=
  (areAllFingersOpen landmarks).map (fun b => if b then GestureLabel.OPEN else GestureLabel.CLOSED)

/-- One outbound HTTP request of sendGestureToESP32. -/
structure EspRequest where
  url : String
  method : String
  contentType : String
  body : String
  deriving DecidableEq

/-- sendGestureToESP32(gestureState): the fetch request it issues.
fetch("http://192.168.4.1/led", POST, form-urlencoded, body state=<label>). -/
def sendGestureToESP32 (gestureState : String) : EspRequest :=
  { url := "http://192.168.4.1/led"
    method := "POST"
    contentType := "application/x-www-form-urlencoded"
    body := "state=" ++ gestureState }

/-- Outcome of the fetch issued by sendGestureToESP32: the promise either
resolves with a response body (any HTTP status; response.text() is read) or
rejects with a network error (connection refused, timeout), which the
.catch handler receives. -/
inductive EspOutcome where
  | httpResponse (bodyText : String)
  | networkError (message : String)

/-- A camera capture session constructed by new Camera(videoRef.current,
{onFrame, width: 640, height: 480}). The id distinguishes constructions. -/
structure CameraSession where
  id : Nat
  width : Nat
  height : Nat
  deriving DecidableEq

/-- The component state: the gestureText React state (initially "OFF"), the
cameraRef mutable ref (null when no session is active), and a count of
Camera constructions performed so far (model bookkeeping used to give fresh
session ids and to observe that no second session is constructed). -/
structure AppState where
  gestureText : String
  cameraRef : Option CameraSession
  camerasConstructed : Nat
  deriving DecidableEq

/-- useState("OFF") and null refs: the initial component state. -/
def initialState : AppState :=
  { gestureText := "OFF", cameraRef := none, camerasConstructed := 0 }

/-- Canvas drawing operations performed by the frame callback and stopCamera. -/
inductive DrawOp where
  | save
  | clearRect
  | drawImage (image : Nat)
  | drawConnectors (landmarks : List Point) (color : String) (lineWidth : Nat)
  | drawLandmarksOp (landmarks : List Point) (color : String) (lineWidth : Nat)
  | restore

/-- The detector result object handed to onResults: an image (frame id) and
the multiHandLandmarks field, which may be absent (undefined/null). -/
structure Results where
  image : Nat
  multiHandLandmarks : Option (List (List Point))

/-- Everything one invocation of onResults produces: the new component
state, the HTTP requests issued, the canvas operations performed, and the
JS error that escaped the callback, if any. -/
structure FrameResult where
  state : AppState
  requests : List EspRequest
  draws : List DrawOp
  err : Option JsError

/-- onResults(results) of the App component (part_000 lines 14-52):
early-returns when canvasRef.current is null; draws the frame; when at
least one hand is present, draws its skeleton, classifies it, sets
gestureText and sends the new label to the ESP32.  A TypeError thrown by
the classifier escapes the callback: state is not updated, no request is
sent, and canvasCtx.restore() is skipped. -/
noncomputable def onResults (canvasPresent : Bool) (results : Results) (s : AppState) : FrameResult :=
  if !canvasPresent then
    { state := s, requests := [], draws := [], err := none }
  else
    let baseDraws := [DrawOp.save, DrawOp.clearRect, DrawOp.drawImage results.image]
    match results.multiHandLandmarks with
    | some (landmarks :: _) =>
      let handDraws := baseDraws ++
        [DrawOp.drawConnectors landmarks "#00FF00" 5,
         DrawOp.drawLandmarksOp landmarks "#FF0000" 2]
      match areAllFingersOpen landmarks with
      | Except.error e =>
        { state := s, requests := [], draws := handDraws, err := some e }
      | Except.ok isOpen =>
        let newGestureText := if isOpen then "ON" else "OFF"
        { state := { s with gestureText := newGestureText }
          requests := [sendGestureToESP32 newGestureText]
          draws := handDraws ++ [DrawOp.restore]
          err := none }
    | some [] =>
      { state := s, requests := [], draws := baseDraws ++ [DrawOp.restore], err := none }
    | none =>
      { state := s, requests := [], draws := baseDraws ++ [DrawOp.restore], err := none }

/-- startCamera() (part_000 lines 104-119): constructs and starts a Camera
only when videoRef.current is populated and cameraRef.current is null. -/
def startCamera (videoPresent : Bool) (s : AppState) : AppState :=
  if videoPresent && s.cameraRef.isNone then
    { s with
      cameraRef := some { id := s.camerasConstructed, width := 640, height := 480 }
      camerasConstructed := s.camerasConstructed + 1 }
  else s

/-- stopCamera() (part_000 lines 122-141): when cameraRef.current is
non-null, stops it, nulls the ref, clears the canvas (when canvasRef is
populated) and resets gestureText to "OFF"; otherwise does nothing.
Returns the new state and the canvas operations performed. -/
def stopCamera (canvasPresent : Bool) (s : AppState) : AppState × List DrawOp :=
  if s.cameraRef.isSome then
    ({ s with cameraRef := none, gestureText := "OFF" },
     if canvasPresent then [DrawOp.clearRect] else [])
  else (s, [])

/-- Completion of a sendGestureToESP32 fetch: the .then handler logs
"LED state:" with the response text, the .catch handler logs the error.
Neither touches component state; the step returns the unchanged state and
the console lines produced. -/
def espResponseStep (s : AppState) (o : EspOutcome) : AppState × List String :=
  match o with
  | EspOutcome.httpResponse bodyText => (s, ["LED state: " ++ bodyText])
  | EspOutcome.networkError message => (s, ["Error sending data to ESP32: " ++ message])

/-- The affine map of claim C5: every landmark p goes to s * p + t. -/
def affinePt (s : ℝ) (t : Point) (p : Point) : Point :=
  { x := s * p.x + t.x, y := s * p.y + t.y, z := s * p.z + t.z }

/-- The tip/base landmark index pair of each finger, as the spec lists them:
thumb (4,2), index (8,5), middle (12,9), ring (16,13), pinky (20,17). -/
def fingerPairs : List (Nat × Nat) := [(4, 2), (8, 5), (12, 9), (16, 13), (20, 17)]

/-- Modelled from the spec: euclidean3D(p, q) =
sqrt((p.x-q.x)^2 + (p.y-q.y)^2 + (p.z-q.z)^2). -/
noncomputable def euclidean3D (p q : Point) : ℝ :=
  Real.sqrt ((p.x - q.x) ^ 2 + (p.y - q.y) ^ 2 + (p.z - q.z) ^ 2)

/-- Modelled from the spec: the per-finger openness ratio
euclidean3D(tip, wrist) / euclidean3D(base, wrist) of a (tip, base) index
pair, the wrist being landmark 0. -/
noncomputable def ratioSpec (L : List Point) (pr : Nat × Nat) : ℝ :=
  euclidean3D (L.getD pr.1 ⟨0, 0, 0⟩) (L.getD 0 ⟨0, 0, 0⟩) /
    euclidean3D (L.getD pr.2 ⟨0, 0, 0⟩) (L.getD 0 ⟨0, 0, 0⟩)

/-- Modelled from the spec: the observation is OPEN iff every per-finger
ratio strictly exceeds 1.7. -/
def specOpen (L : List Point) : Prop :=
  ∀ pr ∈ fingerPairs, ratioSpec L pr > 1.7

/-- The landmark indices areAllFingersOpen reads. -/
def relevantIndices : List Nat := [0, 2, 4, 5, 8, 9, 12, 13, 16, 17, 20]

/-! Concrete observations and states used as witnesses. -/

/-- The wrist (and filler) landmark of the synthetic observations. -/
def wristPt : Point := { x := 0, y := 0, z := 0 }

/-- A finger-base landmark at distance 1 from the wrist. -/
def basePt : Point := { x := 1, y := 0, z := 0 }

/-- A finger-tip landmark at distance 2 from the wrist: ratio 2 > 1.7. -/
def tipPt : Point := { x := 2, y := 0, z := 0 }

/-- A synthetic all-fingers-extended observation: 21 landmarks, every
finger base at distance 1 from the wrist and every tip at distance 2, so
every per-finger ratio is 2. -/
def openHand : List Point :=
  [wristPt, wristPt, basePt, wristPt, tipPt,
   basePt, wristPt, wristPt, tipPt,
   basePt, wristPt, wristPt, tipPt,
   basePt, wristPt, wristPt, tipPt,
   basePt, wristPt, wristPt, tipPt]

/-- openHand with the unused landmarks 1, 3, 6 moved elsewhere: agrees with
openHand on every index areAllFingersOpen reads. -/
def openHandAlt : List Point :=
  [wristPt, ⟨9, 9, 9⟩, basePt, ⟨5, 5, 5⟩, tipPt,
   basePt, ⟨7, 7, 7⟩, wristPt, tipPt,
   basePt, wristPt, wristPt, tipPt,
   basePt, wristPt, wristPt, tipPt,
   basePt, wristPt, wristPt, tipPt]

/-- openHand truncated to 20 landmarks: landmark 20 (the pinky tip) is
missing. -/
def shortHand : List Point :=
  [wristPt, wristPt, basePt, wristPt, tipPt,
   basePt, wristPt, wristPt, tipPt,
   basePt, wristPt, wristPt, tipPt,
   basePt, wristPt, wristPt, tipPt,
   basePt, wristPt, wristPt]

/-- A running state whose last emitted label is "ON". -/
def sON : AppState :=
  { gestureText := "ON"
    cameraRef := some { id := 0, width := 640, height := 480 }
    camerasConstructed := 1 }

/-- A detector result carrying the openHand observation. -/
def openResults : Results := { image := 7, multiHandLandmarks := some [openHand] }

/-- A detector result with zero hand observations. -/
def noHandResults : Results := { image := 3, multiHandLandmarks := some [] }

/-- A detector result carrying the truncated observation. -/
def shortResults : Results := { image := 5, multiHandLandmarks := some [shortHand] }

/-! ### Basic lemmas about the embedding -/

theorem exceptBind_ok {α β ε : Type} (x : α) (f : α → Except ε β) :
    (Except.ok x >>= f : Except ε β) = f x := rfl

theorem exceptBind_err {α β ε : Type} (e : ε) (f : α → Except ε β) :
    (Except.error e >>= f : Except ε β) = Except.error e := rfl

theorem exceptBind_congr {α β ε : Type} (m : Except ε α) (f g : α → Except ε β)
    (h : ∀ a, f a = g a) : (m >>= f) = (m >>= g) := by
  cases m with
  | error e => rfl
  | ok a => exact h a

theorem exceptMap_bind {α β γ ε : Type} (f : α → β) (m : Except ε α) (g : β → Except ε γ) :
    (Except.map f m >>= g) = m >>= fun a => g (f a) := by
  cases m with
  | error e => rfl
  | ok a => rfl

theorem jsIndex_getD (L : List Point) (i : Nat) (h : i < L.length) :
    jsIndex L i = some (L.getD i ⟨0, 0, 0⟩) := by
  induction L generalizing i with
  | nil => simp at h
  | cons p rest ih =>
    cases i with
    | zero => rfl
    | succ n =>
      simp only [List.length_cons, Nat.succ_lt_succ_iff] at h
      simpa [jsIndex] using ih n h

theorem jsIndex_oob (L : List Point) (i : Nat) (h : L.length ≤ i) :
    jsIndex L i = none := by
  induction L generalizing i with
  | nil => cases i <;> rfl
  | cons p rest ih =>
    cases i with
    | zero => simp at h
    | succ n =>
      simp only [List.length_cons, Nat.succ_le_succ_iff] at h
      simpa [jsIndex] using ih n h

theorem jsIndex_map (f : Point → Point) (L : List Point) (i : Nat) :
    jsIndex (L.map f) i = Option.map f (jsIndex L i) := by
  induction L generalizing i with
  | nil => cases i <;> rfl
  | cons p rest ih =>
    cases i with
    | zero => rfl
    | succ n => simpa [jsIndex] using ih n

theorem getLm_lt (L : List Point) (i : Nat) (h : i < L.length) :
    getLm L i = Except.ok (L.getD i ⟨0, 0, 0⟩) := by
  unfold getLm
  rw [jsIndex_getD L i h]

theorem getLm_oob (L : List Point) (i : Nat) (h : L.length ≤ i) :
    getLm L i = Except.error JsError.typeError := by
  unfold getLm
  rw [jsIndex_oob L i h]

theorem getLm_cases (L : List Point) (i : Nat) :
    (∃ p, getLm L i = Except.ok p) ∨ getLm L i = Except.error JsError.typeError := by
  unfold getLm
  cases jsIndex L i with
  | none => exact Or.inr rfl
  | some p => exact Or.inl ⟨p, rfl⟩

theorem getLm_map (f : Point → Point) (L : List Point) (i : Nat) :
    getLm (L.map f) i = Except.map f (getLm L i) := by
  unfold getLm
  rw [jsIndex_map]
  cases jsIndex L i with
  | none => rfl
  | some p => rfl

/-! ### Geometry lemmas -/

theorem dist3_affine (s : ℝ) (t : Point) (hs : 0 ≤ s) (p q : Point) :
    dist3 (affinePt s t p) (affinePt s t q) = s * dist3 p q := by
  unfold dist3 affinePt
  simp only
  have h1 : (s * p.x + t.x - (s * q.x + t.x)) ^ 2 + (s * p.y + t.y - (s * q.y + t.y)) ^ 2 +
      (s * p.z + t.z - (s * q.z + t.z)) ^ 2 =
      s ^ 2 * ((p.x - q.x) ^ 2 + (p.y - q.y) ^ 2 + (p.z - q.z) ^ 2) := by ring
  rw [h1, Real.sqrt_mul (sq_nonneg s), Real.sqrt_sq hs]

theorem dist3_axis (a : ℝ) (h : 0 ≤ a) :
    dist3 { x := a, y := 0, z := 0 } { x := 0, y := 0, z := 0 } = a := by
  unfold dist3
  simp only
  rw [show (a - 0) ^ 2 + ((0 : ℝ) - 0) ^ 2 + ((0 : ℝ) - 0) ^ 2 = a ^ 2 by ring,
    Real.sqrt_sq h]

/-! ### Classifier evaluation lemmas -/

theorem ratiosOpen_eq_true_iff (p4 p0 p2 p8 p5 p12 p9 p16 p13 p20 p17 : Point) :
    ratiosOpen p4 p0 p2 p8 p5 p12 p9 p16 p13 p20 p17 = true ↔
      (dist3 p4 p0 / dist3 p2 p0 > 1.7 ∧ dist3 p8 p0 / dist3 p5 p0 > 1.7 ∧
       dist3 p12 p0 / dist3 p9 p0 > 1.7 ∧ dist3 p16 p0 / dist3 p13 p0 > 1.7 ∧
       dist3 p20 p0 / dist3 p17 p0 > 1.7) := by
  simp [ratiosOpen, Bool.and_eq_true, decide_eq_true_eq, and_assoc]

theorem ratiosOpen_affine (s : ℝ) (t : Point) (hs : 0 < s)
    (p4 p0 p2 p8 p5 p12 p9 p16 p13 p20 p17 : Point) :
    ratiosOpen (affinePt s t p4) (affinePt s t p0) (affinePt s t p2) (affinePt s t p8)
      (affinePt s t p5) (affinePt s t p12) (affinePt s t p9) (affinePt s t p16)
      (affinePt s t p13) (affinePt s t p20) (affinePt s t p17) =
      ratiosOpen p4 p0 p2 p8 p5 p12 p9 p16 p13 p20 p17 := by
  simp only [ratiosOpen, dist3_affine s t hs.le,
    mul_div_mul_left _ _ (ne_of_gt hs)]

/-- With a full 21-landmark observation every read succeeds and
areAllFingersOpen reduces to the pure ratio test on the eleven used
landmarks. -/
theorem areAllFingersOpen_eval (L : List Point) (h : L.length = 21) :
    areAllFingersOpen L = Except.ok
      (ratiosOpen (L.getD 4 ⟨0, 0, 0⟩) (L.getD 0 ⟨0, 0, 0⟩) (L.getD 2 ⟨0, 0, 0⟩)
        (L.getD 8 ⟨0, 0, 0⟩) (L.getD 5 ⟨0, 0, 0⟩) (L.getD 12 ⟨0, 0, 0⟩)
        (L.getD 9 ⟨0, 0, 0⟩) (L.getD 16 ⟨0, 0, 0⟩) (L.getD 13 ⟨0, 0, 0⟩)
        (L.getD 20 ⟨0, 0, 0⟩) (L.getD 17 ⟨0, 0, 0⟩)) := by
  simp only [areAllFingersOpen,
    getLm_lt L 4 (by omega), getLm_lt L 0 (by omega), getLm_lt L 2 (by omega),
    getLm_lt L 8 (by omega), getLm_lt L 5 (by omega), getLm_lt L 12 (by omega),
    getLm_lt L 9 (by omega), getLm_lt L 16 (by omega), getLm_lt L 13 (by omega),
    getLm_lt L 20 (by omega), getLm_lt L 17 (by omega), exceptBind_ok]
  rfl

/-- areAllFingersOpen is invariant under mapping every landmark through an
orientation-preserving uniform scaling and translation. -/
theorem areAllFingersOpen_map_affine (L : List Point) (s : ℝ) (t : Point) (hs : 0 < s) :
    areAllFingersOpen (L.map (affinePt s t)) = areAllFingersOpen L := by
  simp only [areAllFingersOpen, getLm_map, exceptMap_bind]
  apply exceptBind_congr; intro p4
  apply exceptBind_congr; intro p0
  apply exceptBind_congr; intro p2
  apply exceptBind_congr; intro p8
  apply exceptBind_congr; intro p5
  apply exceptBind_congr; intro p12
  apply exceptBind_congr; intro p9
  apply exceptBind_congr; intro p16
  apply exceptBind_congr; intro p13
  apply exceptBind_congr; intro p20
  apply exceptBind_congr; intro p17
  exact congrArg (fun b => (pure b : Except JsError Bool))
    (ratiosOpen_affine s t hs p4 p0 p2 p8 p5 p12 p9 p16 p13 p20 p17)

/-- With fewer than 21 landmarks the read of landmark 20 (or of an earlier
missing landmark) throws, so areAllFingersOpen always fails with the
TypeError. -/
theorem areAllFingersOpen_short (L : List Point) (h : L.length < 21) :
    areAllFingersOpen L = Except.error JsError.typeError := by
  have h20 : getLm L 20 = Except.error JsError.typeError := getLm_oob L 20 (by omega)
  simp only [areAllFingersOpen]
  rcases getLm_cases L 4 with ⟨p4, h4⟩ | h4
  · simp only [h4, exceptBind_ok]
    rcases getLm_cases L 0 with ⟨p0, h0⟩ | h0
    · simp only [h0, exceptBind_ok]
      rcases getLm_cases L 2 with ⟨p2, h2⟩ | h2
      · simp only [h2, exceptBind_ok]
        rcases getLm_cases L 8 with ⟨p8, h8⟩ | h8
        · simp only [h8, exceptBind_ok]
          rcases getLm_cases L 5 with ⟨p5, h5⟩ | h5
          · simp only [h5, exceptBind_ok]
            rcases getLm_cases L 12 with ⟨p12, h12⟩ | h12
            · simp only [h12, exceptBind_ok]
              rcases getLm_cases L 9 with ⟨p9, h9⟩ | h9
              · simp only [h9, exceptBind_ok]
                rcases getLm_cases L 16 with ⟨p16, h16⟩ | h16
                · simp only [h16, exceptBind_ok]
                  rcases getLm_cases L 13 with ⟨p13, h13⟩ | h13
                  · simp only [h13, exceptBind_ok, h20, exceptBind_err]
                  · simp only [h13, exceptBind_err]
                · simp only [h16, exceptBind_err]
              · simp only [h9, exceptBind_err]
            · simp only [h12, exceptBind_err]
          · simp only [h5, exceptBind_err]
        · simp only [h8, exceptBind_err]
      · simp only [h2, exceptBind_err]
    · simp only [h0, exceptBind_err]
  · simp only [h4, exceptBind_err]

/-- The ratio test holds on the synthetic open-hand landmark tuple: every
ratio is 2/1 = 2 > 1.7. -/
theorem ratiosOpen_openTuple :
    ratiosOpen tipPt wristPt basePt tipPt basePt tipPt basePt tipPt basePt tipPt basePt = true := by
  rw [ratiosOpen_eq_true_iff]
  have hb : dist3 basePt wristPt = 1 := dist3_axis 1 (by norm_num)
  have ht : dist3 tipPt wristPt = 2 := dist3_axis 2 (by norm_num)
  rw [hb, ht]
  norm_num

/-- areAllFingersOpen classifies the synthetic open hand as open. -/
theorem areAllFingersOpen_openHand : areAllFingersOpen openHand = Except.ok true := by
  have h : areAllFingersOpen openHand = Except.ok
      (ratiosOpen tipPt wristPt basePt tipPt basePt tipPt basePt tipPt basePt tipPt basePt) := rfl
  rw [h, ratiosOpen_openTuple]

/-- areAllFingersOpen throws on the truncated observation. -/
theorem areAllFingersOpen_shortHand :
    areAllFingersOpen shortHand = Except.error JsError.typeError := rfl

/-! ### Frame-callback behavior lemmas -/

/-- A frame whose first hand classifies without error: gestureText is set to
the fresh label and exactly one request carrying that label is sent,
whatever the previous state was. -/
theorem onResults_classified (s : AppState) (img : Nat) (L : List Point)
    (hands : List (List Point)) (b : Bool) (hb : areAllFingersOpen L = Except.ok b) :
    onResults true { image := img, multiHandLandmarks := some (L :: hands) } s =
      { state := { s with gestureText := if b then "ON" else "OFF" }
        requests := [sendGestureToESP32 (if b then "ON" else "OFF")]
        draws := [DrawOp.save, DrawOp.clearRect, DrawOp.drawImage img,
                  DrawOp.drawConnectors L "#00FF00" 5,
                  DrawOp.drawLandmarksOp L "#FF0000" 2, DrawOp.restore]
        err := none } := by
  simp [onResults, hb]

/-- A frame whose first hand makes the classifier throw: the error escapes,
the state is unchanged and no request is sent (and restore is skipped). -/
theorem onResults_error (s : AppState) (img : Nat) (L : List Point)
    (hands : List (List Point)) (e : JsError)
    (he : areAllFingersOpen L = Except.error e) :
    onResults true { image := img, multiHandLandmarks := some (L :: hands) } s =
      { state := s
        requests := []
        draws := [DrawOp.save, DrawOp.clearRect, DrawOp.drawImage img,
                  DrawOp.drawConnectors L "#00FF00" 5,
                  DrawOp.drawLandmarksOp L "#FF0000" 2]
        err := some e } := by
  simp [onResults, he]

/-- A frame with zero hand observations: only the video frame is repainted;
state, requests and errors are untouched. -/
theorem onResults_noHand (s : AppState) (r : Results)
    (h : r.multiHandLandmarks = some [] ∨ r.multiHandLandmarks = none) :
    onResults true r s =
      { state := s
        requests := []
        draws := [DrawOp.save, DrawOp.clearRect, DrawOp.drawImage r.image, DrawOp.restore]
        err := none } := by
  rcases h with h | h <;> simp [onResults, h]

/-! ### Claim theorems -/

/-- C1: for every 21-landmark observation, classify returns OPEN iff for
each of the five fingers the ratio euclidean3D(tip, wrist) /
euclidean3D(base, wrist) is strictly greater than 1.7 (wrist = landmark 0,
pairs thumb (4,2), index (8,5), middle (12,9), ring (16,13), pinky
(20,17)); otherwise, in particular when some ratio equals 1.7 exactly, it
returns CLOSED. -/
theorem classify_open_iff_all_ratios_gt (L : List Point) (h : L.length = 21) :
    (classify L = Except.ok GestureLabel.OPEN ↔ specOpen L) ∧
    (classify L = Except.ok GestureLabel.CLOSED ↔ ¬specOpen L) := by
  obtain ⟨b, hev, key⟩ :
      ∃ b, areAllFingersOpen L = Except.ok b ∧ (b = true ↔ specOpen L) := by
    refine ⟨_, areAllFingersOpen_eval L h, ?_⟩
    rw [ratiosOpen_eq_true_iff]
    simp [specOpen, fingerPairs, ratioSpec, euclidean3D, dist3]
  simp only [classify, hev, Except.map]
  cases b with
  | false =>
    have hns : ¬specOpen L := fun hsp => Bool.false_ne_true (key.mpr hsp)
    simp [hns]
  | true =>
    have hsp : specOpen L := key.mp rfl
    simp [hsp]

/-- C1 witness: the synthetic open hand instantiates the hypothesis. -/
theorem classify_open_iff_all_ratios_gt_witness :
    openHand.length = 21 ∧
    ((classify openHand = Except.ok GestureLabel.OPEN ↔ specOpen openHand) ∧
     (classify openHand = Except.ok GestureLabel.CLOSED ↔ ¬specOpen openHand)) :=
  ⟨rfl, classify_open_iff_all_ratios_gt openHand rfl⟩

/-- C5: classify is invariant under mapping every landmark to s * p + t for
any uniform scale s > 0 and translation t. -/
theorem classify_affine_invariant (L : List Point) (s : ℝ) (t : Point) (hs : 0 < s) :
    classify (L.map (affinePt s t)) = classify L := by
  unfold classify
  rw [areAllFingersOpen_map_affine L s t hs]

/-- C5 witness: scaling the open hand by 2 and translating by (1,1,1). -/
theorem classify_affine_invariant_witness :
    classify (openHand.map (affinePt 2 ⟨1, 1, 1⟩)) = classify openHand :=
  classify_affine_invariant openHand 2 ⟨1, 1, 1⟩ (by norm_num)

/-- C10: the classifier reads only landmarks 0, 2, 4, 5, 8, 9, 12, 13, 16,
17 and 20; two 21-landmark observations agreeing there classify alike. -/
theorem classifier_depends_only_on_used_indices (L1 L2 : List Point)
    (_h1 : L1.length = 21) (_h2 : L2.length = 21)
    (hagree : ∀ i ∈ relevantIndices, jsIndex L1 i = jsIndex L2 i) :
    areAllFingersOpen L1 = areAllFingersOpen L2 := by
  have e : ∀ i ∈ relevantIndices, getLm L1 i = getLm L2 i := by
    intro i hi
    unfold getLm
    rw [hagree i hi]
  simp only [areAllFingersOpen]
  rw [e 4 (by decide), e 0 (by decide), e 2 (by decide), e 8 (by decide),
    e 5 (by decide), e 12 (by decide), e 9 (by decide), e 16 (by decide),
    e 13 (by decide), e 20 (by decide), e 17 (by decide)]

/-- C10 witness: openHand and openHandAlt differ at the unused landmarks 1,
3 and 6 but agree on every index the classifier reads. -/
theorem classifier_depends_only_on_used_indices_witness :
    areAllFingersOpen openHand = areAllFingersOpen openHandAlt :=
  classifier_depends_only_on_used_indices openHand openHandAlt rfl rfl
    (by intro i hi; fin_cases hi <;> rfl)

/-- C2 counterexample: with the previously emitted label already "ON" and a
frame whose hand again classifies "ON", the code still issues a request —
the notifier fires on every classified frame, not only on transitions. -/
theorem notify_repeated_label_cex :
    sON.gestureText = "ON" ∧
    (onResults true openResults sON).state.gestureText = "ON" ∧
    (onResults true openResults sON).requests = [sendGestureToESP32 "ON"] := by
  have h := onResults_classified sON 7 openHand [] true areAllFingersOpen_openHand
  refine ⟨rfl, ?_, ?_⟩ <;> simp only [openResults] <;> rw [h] <;> rfl

/-- C2 amended: the actuator notifier is invoked on every frame in which a
hand is detected and classified, with the freshly classified label,
regardless of whether the label differs from the current gesture state; no
debouncing is performed. -/
theorem notify_every_hand_frame (s : AppState) (img : Nat) (L : List Point)
    (hands : List (List Point)) (b : Bool) (hb : areAllFingersOpen L = Except.ok b) :
    (onResults true { image := img, multiHandLandmarks := some (L :: hands) } s).requests =
      [sendGestureToESP32 (if b then "ON" else "OFF")] := by
  rw [onResults_classified s img L hands b hb]

/-- C2 amended witness: a repeated "ON" frame still sends one request. -/
theorem notify_every_hand_frame_witness :
    (onResults true { image := 7, multiHandLandmarks := some (openHand :: []) } sON).requests =
      [sendGestureToESP32 (if true then "ON" else "OFF")] :=
  notify_every_hand_frame sON 7 openHand [] true areAllFingersOpen_openHand

/-- C3 counterexample: on a 20-landmark observation the classifier fails
with the TypeError thrown when a coordinate of the undefined landmark 20 is
read, not with an InvalidObservation error. -/
theorem short_observation_type_error_cex :
    shortHand.length = 20 ∧
    areAllFingersOpen shortHand = Except.error JsError.typeError ∧
    areAllFingersOpen shortHand ≠ Except.error JsError.invalidObservation := by
  refine ⟨rfl, areAllFingersOpen_shortHand, ?_⟩
  rw [areAllFingersOpen_shortHand]
  simp

/-- C3 amended: on an observation with fewer than 21 landmarks the
classifier throws the TypeError arising from the out-of-range read; the
exception escapes the frame callback unhandled, so the frame produces no
gesture-state update and no notification. -/
theorem short_observation_skips_frame (s : AppState) (img : Nat) (L : List Point)
    (hands : List (List Point)) (h : L.length < 21) :
    areAllFingersOpen L = Except.error JsError.typeError ∧
    (onResults true { image := img, multiHandLandmarks := some (L :: hands) } s).state = s ∧
    (onResults true { image := img, multiHandLandmarks := some (L :: hands) } s).requests = [] ∧
    (onResults true { image := img, multiHandLandmarks := some (L :: hands) } s).err =
      some JsError.typeError := by
  have he := areAllFingersOpen_short L h
  refine ⟨he, ?_, ?_, ?_⟩ <;> rw [onResults_error s img L hands JsError.typeError he]

/-- C3 amended witness: the truncated observation instantiates it. -/
theorem short_observation_skips_frame_witness :
    shortHand.length < 21 ∧
    (areAllFingersOpen shortHand = Except.error JsError.typeError ∧
     (onResults true { image := 5, multiHandLandmarks := some (shortHand :: []) } sON).state = sON ∧
     (onResults true { image := 5, multiHandLandmarks := some (shortHand :: []) } sON).requests = [] ∧
     (onResults true { image := 5, multiHandLandmarks := some (shortHand :: []) } sON).err =
       some JsError.typeError) :=
  ⟨by decide, short_observation_skips_frame sON 5 shortHand [] (by decide)⟩

/-- C4 counterexample: with the status at "ON", a frame with zero hand
observations leaves it at "ON" — it does not become the default "OFF". -/
theorem no_hand_keeps_status_cex :
    sON.gestureText = "ON" ∧
    (onResults true noHandResults sON).state.gestureText = "ON" ∧
    (onResults true noHandResults sON).state.gestureText ≠ "OFF" := by
  have h := onResults_noHand sON noHandResults (Or.inl rfl)
  refine ⟨rfl, ?_, ?_⟩ <;> rw [h] <;> decide

/-- C4 amended: a frame with zero hand observations (or an absent
multiHandLandmarks field) leaves the gesture state and status text
unchanged at their previous values and issues no notification; the status
is "OFF" on such frames only when it already was — as the initial default
or after stopCamera. -/
theorem no_hand_frame_no_update (cp : Bool) (s : AppState) (r : Results)
    (h : r.multiHandLandmarks = some [] ∨ r.multiHandLandmarks = none) :
    (onResults cp r s).state = s ∧ (onResults cp r s).requests = [] := by
  cases cp with
  | false => exact ⟨rfl, rfl⟩
  | true =>
    rw [onResults_noHand s r h]
    exact ⟨rfl, rfl⟩

/-- C4 amended witness: a zero-hand frame on the "ON" state. -/
theorem no_hand_frame_no_update_witness :
    (onResults true noHandResults sON).state = sON ∧
    (onResults true noHandResults sON).requests = [] :=
  no_hand_frame_no_update true sON noHandResults (Or.inl rfl)

/-- C6: stopCamera while a session is active resets gestureText to "OFF"
(the CLOSED label) and clears the session, whatever the prior state. -/
theorem stopCamera_resets_off (cp : Bool) (s : AppState) (h : s.cameraRef.isSome = true) :
    (stopCamera cp s).1.gestureText = "OFF" ∧ (stopCamera cp s).1.cameraRef = none := by
  simp [stopCamera, h]

/-- C6 witness: stopping from the running "ON" state. -/
theorem stopCamera_resets_off_witness :
    (stopCamera true sON).1.gestureText = "OFF" ∧ (stopCamera true sON).1.cameraRef = none :=
  stopCamera_resets_off true sON rfl

/-- C7: startCamera while a session is already active is a no-op — no
second Camera is constructed, so at most one session is active. -/
theorem startCamera_idempotent (v : Bool) (s : AppState) (c : CameraSession)
    (h : s.cameraRef = some c) :
    startCamera v s = s ∧
    (startCamera v s).camerasConstructed = s.camerasConstructed := by
  have hnoop : startCamera v s = s := by
    simp [startCamera, h]
  exact ⟨hnoop, by rw [hnoop]⟩

/-- C7 witness: a second start on the running state changes nothing. -/
theorem startCamera_idempotent_witness :
    startCamera true sON = sON ∧
    (startCamera true sON).camerasConstructed = sON.camerasConstructed :=
  startCamera_idempotent true sON { id := 0, width := 640, height := 480 } rfl

/-- C8: completion of a sendGestureToESP32 fetch — success, HTTP error body
or network failure — only logs; the component state, hence the gesture
state, the status display and the active session, is returned unchanged,
and the handlers raise nothing. -/
theorem espResponse_preserves_state (s : AppState) (o : EspOutcome) :
    (espResponseStep s o).1 = s := by
  cases o <;> rfl

/-- C9: stopCamera while no session is active is a no-op — same state, no
canvas operation, no error. -/
theorem stopCamera_idle_noop (cp : Bool) (s : AppState) (h : s.cameraRef = none) :
    stopCamera cp s = (s, []) := by
  simp [stopCamera, h]

/-- C9 witness: stopping from the initial idle state. -/
theorem stopCamera_idle_noop_witness :
    stopCamera true initialState = (initialState, []) :=
  stopCamera_idle_noop true initialState rfl
